import Mathlib

/-!
Verification of the core components of an embedded earthquake-monitor
firmware: the transaction-hash deduplication ring (websocket.cpp), the
WebSocket frame handler, the notification scheduler (audio beeps plus
screen flashing, with a 3-slot queue, notification.cpp), the scrollable
display list (display.cpp), and the reconnect/backoff connection manager
(websocket.cpp).  Each definition is a shallow embedding of the
corresponding C++ function; `millis()` timestamps are modelled as natural
numbers below 2^32 and unsigned `unsigned long` subtraction as `elapsedMs`.
-/

namespace EqMon

/-- Unsigned 32-bit subtraction `now - last` as performed on `unsigned long`
`millis()` values (wraps modulo 2^32). -/
def elapsedMs (now last : Nat) : Nat :=
  (now % 4294967296 + 4294967296 - last % 4294967296) % 4294967296

theorem elapsedMs_eq_sub {now last : Nat} (h1 : last ≤ now)
    (h2 : now < 4294967296) : elapsedMs now last = now - last := by
  unfold elapsedMs
  omega

theorem elapsedMs_self (t : Nat) : elapsedMs t t = 0 := by
  unfold elapsedMs
  omega

/-- Earthquake record (`struct EarthquakeData` in earthquake.h).  The float
fields (latitude, longitude, magnitude) are modelled as integers scaled by
a fixed factor; no verified claim computes with them. -/
structure EarthquakeData where
  datetime : String
  hypocenterName : String
  latitude : Int
  longitude : Int
  depth : Int
  magnitude : Int
  maxIntensity : String
  tsunami : String
deriving Inhabited, DecidableEq

/-! ## Deduplicator (websocket.cpp: txHashBuffer / txHashIndex) -/

/-- Deduplication ring state: `txHashBuffer` (10 slots) and its write cursor
`txHashIndex`.  The fixed C array is modelled as a list whose length-10
well-formedness is `DedupWF`. -/
structure DedupState where
  txHashBuffer : List String
  txHashIndex : Nat
deriving Inhabited, DecidableEq

def TX_HASH_BUFFER_SIZE : Nat := 10

/-- Buffer initialization in `initWebSocket`: every slot the empty string,
cursor 0. -/
def dedupInit : DedupState :=
  ⟨List.replicate TX_HASH_BUFFER_SIZE "", 0⟩

/-- `isDuplicateTransaction`: linear scan of all 10 slots for an exact,
case-sensitive string match. -/
def isDuplicateTransaction (s : DedupState) (txHash : String) : Bool :=
  s.txHashBuffer.contains txHash

/-- `addTransactionHash`: write at the cursor, advance it modulo 10. -/
def addTransactionHash (s : DedupState) (txHash : String) : DedupState :=
  ⟨s.txHashBuffer.set s.txHashIndex txHash,
   (s.txHashIndex + 1) % TX_HASH_BUFFER_SIZE⟩

/-- The admit operation as `handleWebSocketMessage` uses the two functions:
reject duplicates, otherwise record the hash.  `true` means admitted. -/
def dedupAdmit (s : DedupState) (txHash : String) : DedupState × Bool :=
  if isDuplicateTransaction s txHash then (s, false)
  else (addTransactionHash s txHash, true)

/-- Run a sequence of admit calls, collecting the admitted identifiers in
call order. -/
def dedupRunFrom (s : DedupState) : List String → DedupState × List String
  | [] => (s, [])
  | c :: cs =>
    let r := dedupAdmit s c
    let rest := dedupRunFrom r.1 cs
    (rest.1, (if r.2 then [c] else []) ++ rest.2)

def dedupRun (cs : List String) : DedupState × List String :=
  dedupRunFrom dedupInit cs

/-- The last `n` elements of a list. -/
def takeLast (n : Nat) (l : List α) : List α := l.drop (l.length - n)

def DedupWF (s : DedupState) : Prop :=
  s.txHashBuffer.length = 10 ∧ s.txHashIndex < 10

/-- Ring contents rotated into age order: the slot at the cursor comes
first (it is the next to be overwritten, hence the oldest). -/
def ringAbs (s : DedupState) : List String :=
  s.txHashBuffer.drop s.txHashIndex ++ s.txHashBuffer.take s.txHashIndex

theorem mem_ringAbs {s : DedupState} {x : String} :
    x ∈ ringAbs s ↔ x ∈ s.txHashBuffer := by
  unfold ringAbs
  constructor
  · intro h
    rcases List.mem_append.mp h with h' | h'
    · exact List.mem_of_mem_drop h'
    · exact List.mem_of_mem_take h'
  · intro h
    rw [← List.take_append_drop s.txHashIndex s.txHashBuffer] at h
    rcases List.mem_append.mp h with h' | h'
    · exact List.mem_append.mpr (Or.inr h')
    · exact List.mem_append.mpr (Or.inl h')

theorem list_len10 {α : Type} {l : List α} (h : l.length = 10) :
    ∃ a0 a1 a2 a3 a4 a5 a6 a7 a8 a9 : α,
      l = [a0, a1, a2, a3, a4, a5, a6, a7, a8, a9] := by
  rcases l with _ | ⟨a0, l⟩
  · simp at h
  rcases l with _ | ⟨a1, l⟩
  · simp at h
  rcases l with _ | ⟨a2, l⟩
  · simp at h
  rcases l with _ | ⟨a3, l⟩
  · simp at h
  rcases l with _ | ⟨a4, l⟩
  · simp at h
  rcases l with _ | ⟨a5, l⟩
  · simp at h
  rcases l with _ | ⟨a6, l⟩
  · simp at h
  rcases l with _ | ⟨a7, l⟩
  · simp at h
  rcases l with _ | ⟨a8, l⟩
  · simp at h
  rcases l with _ | ⟨a9, l⟩
  · simp at h
  rcases l with _ | ⟨a10, l⟩
  · exact ⟨a0, a1, a2, a3, a4, a5, a6, a7, a8, a9, rfl⟩
  · simp at h

theorem ringAbs_length {s : DedupState} (h : DedupWF s) :
    (ringAbs s).length = 10 := by
  obtain ⟨hb, hi⟩ := h
  unfold ringAbs
  simp [hb]
  omega

theorem addTransactionHash_wf {s : DedupState} (h : DedupWF s) (x : String) :
    DedupWF (addTransactionHash s x) := by
  obtain ⟨hb, hi⟩ := h
  constructor
  · simp [addTransactionHash, hb]
  · simp only [addTransactionHash, TX_HASH_BUFFER_SIZE]
    omega

theorem ringAbs_add {s : DedupState} (h : DedupWF s) (x : String) :
    ringAbs (addTransactionHash s x) = (ringAbs s).drop 1 ++ [x] := by
  obtain ⟨b, i⟩ := s
  obtain ⟨hb, hi⟩ := h
  obtain ⟨a0, a1, a2, a3, a4, a5, a6, a7, a8, a9, rfl⟩ := list_len10 hb
  simp only [DedupState.txHashIndex] at hi
  interval_cases i <;>
    simp [ringAbs, addTransactionHash, TX_HASH_BUFFER_SIZE]

/-- The window the ring denotes after the identifiers `A` have been admitted
(in order): initial empty-string padding followed by the last 10 admitted
identifiers, oldest first. -/
def padWindow (A : List String) : List String :=
  List.replicate (10 - min A.length 10) "" ++ takeLast 10 A

theorem takeLast_all {l : List α} (h : l.length ≤ 10) : takeLast 10 l = l := by
  unfold takeLast
  have : l.length - 10 = 0 := by omega
  simp [this]

theorem padWindow_snoc (A : List String) (x : String) :
    (padWindow A).drop 1 ++ [x] = padWindow (A ++ [x]) := by
  by_cases h : A.length < 10
  · have h1 : padWindow A = List.replicate (10 - A.length) "" ++ A := by
      unfold padWindow
      rw [takeLast_all (le_of_lt h), min_eq_left (le_of_lt h)]
    have h2 : padWindow (A ++ [x]) =
        List.replicate (10 - (A.length + 1)) "" ++ (A ++ [x]) := by
      unfold padWindow
      rw [takeLast_all (by simp; omega), min_eq_left (by simp; omega)]
      simp
    rw [h1, h2]
    have h3 : (10 : Nat) - A.length = (10 - (A.length + 1)) + 1 := by omega
    rw [h3, List.replicate_succ]
    simp
  · have hge : 10 ≤ A.length := by omega
    have h1 : padWindow A = A.drop (A.length - 10) := by
      unfold padWindow takeLast
      rw [min_eq_right hge]
      simp
    have h2 : padWindow (A ++ [x]) = (A ++ [x]).drop (A.length + 1 - 10) := by
      unfold padWindow takeLast
      rw [min_eq_right (by simp; omega)]
      simp
    rw [h1, h2, List.drop_drop]
    rw [List.drop_append_of_le_length (by omega)]
    congr 2
    omega

theorem mem_padWindow {A : List String} {x : String} (hx : x ≠ "") :
    x ∈ padWindow A ↔ x ∈ takeLast 10 A := by
  unfold padWindow
  constructor
  · intro h
    rcases List.mem_append.mp h with h' | h'
    · exact absurd (List.eq_of_mem_replicate h') hx
    · exact h'
  · intro h
    exact List.mem_append.mpr (Or.inr h)

theorem isDuplicate_iff_mem {s : DedupState} {x : String} :
    isDuplicateTransaction s x = true ↔ x ∈ s.txHashBuffer := by
  simp [isDuplicateTransaction]

/-- Inductive invariant tying a reachable ring state to the list `A` of all
identifiers admitted so far. -/
def DedupInv (s : DedupState) (A : List String) : Prop :=
  DedupWF s ∧ ringAbs s = padWindow A ∧ s.txHashIndex = A.length % 10

theorem dedupInit_inv : DedupInv dedupInit [] := by
  refine ⟨⟨by simp [dedupInit, TX_HASH_BUFFER_SIZE], by simp [dedupInit]⟩, ?_, ?_⟩
  · simp [dedupInit, ringAbs, padWindow, takeLast, TX_HASH_BUFFER_SIZE]
  · simp [dedupInit]

theorem dedupAdmit_inv {s : DedupState} {A : List String} (h : DedupInv s A)
    (x : String) :
    DedupInv (dedupAdmit s x).1
      (A ++ if (dedupAdmit s x).2 then [x] else []) := by
  obtain ⟨hwf, habs, hidx⟩ := h
  unfold dedupAdmit
  by_cases hdup : isDuplicateTransaction s x
  · simp [hdup]
    exact ⟨hwf, habs, hidx⟩
  · simp [hdup]
    refine ⟨addTransactionHash_wf hwf x, ?_, ?_⟩
    · rw [ringAbs_add hwf x, habs, padWindow_snoc]
    · simp [addTransactionHash, TX_HASH_BUFFER_SIZE, hidx]

theorem dedupRunFrom_inv {s : DedupState} {A : List String}
    (h : DedupInv s A) (cs : List String) :
    DedupInv (dedupRunFrom s cs).1 (A ++ (dedupRunFrom s cs).2) := by
  induction cs generalizing s A with
  | nil => simpa [dedupRunFrom] using h
  | cons c cs ih =>
    have hstep := dedupAdmit_inv h c
    have := ih hstep
    simpa [dedupRunFrom] using this

theorem dedupRun_inv (cs : List String) :
    DedupInv (dedupRun cs).1 (dedupRun cs).2 := by
  have := dedupRunFrom_inv dedupInit_inv cs
  simpa [dedupRun] using this

/-- C4 counterexample: as stated, the claim fails on the empty identifier.
`initWebSocket` fills all 10 ring slots with the empty string, so admitting
`""` before any admissions returns `false` (rejected) although `""` is not
among the (zero) previously admitted identifiers. -/
theorem claim_C4_counterexample :
    ¬(((dedupAdmit (dedupRun []).1 "").2 = false) ↔
      "" ∈ takeLast 10 (dedupRun []).2) := by
  decide

/-- C4 (amended): for every sequence of admit calls and every NON-EMPTY
identifier `x`, `admit x` returns false iff `x` exactly equals one of the 10
most recently admitted (true-returning) identifiers — so an identifier older
than the last 10 admitted ones is re-admittable; moreover the ring's write
cursor always equals the number of admissions so far modulo 10 (admission
writes at the cursor and advances it modulo 10, overwriting the oldest
slot).  The only correction: the empty identifier is additionally rejected
while ring slots still hold their initial empty-string value. -/
theorem claim_C4_amended (cs : List String) (x : String) (hx : x ≠ "") :
    ((dedupAdmit (dedupRun cs).1 x).2 = false ↔
      x ∈ takeLast 10 (dedupRun cs).2) ∧
    (dedupRun cs).1.txHashIndex = (dedupRun cs).2.length % 10 := by
  obtain ⟨hwf, habs, hidx⟩ := dedupRun_inv cs
  refine ⟨?_, hidx⟩
  have hmem : isDuplicateTransaction (dedupRun cs).1 x = true ↔
      x ∈ takeLast 10 (dedupRun cs).2 := by
    rw [isDuplicate_iff_mem, ← mem_ringAbs, habs, mem_padWindow hx]
  have hfalse : (dedupAdmit (dedupRun cs).1 x).2 = false ↔
      isDuplicateTransaction (dedupRun cs).1 x = true := by
    unfold dedupAdmit
    by_cases hdup : isDuplicateTransaction (dedupRun cs).1 x <;> simp [hdup]
  rw [hfalse, hmem]

/-- Witness for C4 at a concrete input: after admitting "a" then "b", a
repeat "a" is rejected, and the cursor sits at 2. -/
theorem claim_C4_witness :
    ((dedupAdmit (dedupRun ["a", "b"]).1 "a").2 = false ↔
      "a" ∈ takeLast 10 (dedupRun ["a", "b"]).2) ∧
    (dedupRun ["a", "b"]).1.txHashIndex =
      (dedupRun ["a", "b"]).2.length % 10 :=
  claim_C4_amended ["a", "b"] "a" (by decide)

/-! ## Frame handling (websocket.cpp handleWebSocketMessage,
earthquake.cpp decodeHexMessage / parseWebSocketMessage) -/

/-- Value of one hexadecimal digit (the digit forms `strtol` base 16
accepts; the whitespace/sign forms that cannot occur in a hex-encoded
payload are not reproduced). -/
def hexDigitVal (c : Char) : Option Nat :=
  if '0' ≤ c ∧ c ≤ '9' then some (c.toNat - '0'.toNat)
  else if 'a' ≤ c ∧ c ≤ 'f' then some (c.toNat - 'a'.toNat + 10)
  else if 'A' ≤ c ∧ c ≤ 'F' then some (c.toNat - 'A'.toNat + 10)
  else none

/-- The byte-pair loop of `decodeHexMessage`: two hex chars per output
character, any invalid character aborts the whole decode. -/
def decodeHexPairs : List Char → Option (List Char)
  | [] => some []
  | [_] => none
  | c1 :: c2 :: rest =>
    match hexDigitVal c1, hexDigitVal c2 with
    | some hi, some lo =>
      (decodeHexPairs rest).map (fun cs => Char.ofNat (hi * 16 + lo) :: cs)
    | _, _ => none

/-- `decodeHexMessage` (earthquake.cpp): reject odd length, skip the first
byte (two hex chars), decode the rest; any error yields the empty string. -/
def decodeHexMessage (hexMessage : String) : String :=
  if hexMessage.length % 2 ≠ 0 then ""
  else
    match decodeHexPairs (hexMessage.data.drop 2) with
    | some cs => String.mk cs
    | none => ""

/-- `parseWebSocketMessage` (earthquake.cpp): hex-decode, then parse the
earthquake JSON.  The JSON parse (`parseEarthquakeJson`, built on the
external ArduinoJson collaborator) is passed in as an oracle; an empty
decode result is treated as failure before the oracle is consulted. -/
def parseWebSocketMessage (hexMessage : String)
    (parseEarthquakeJson : String → Option EarthquakeData) :
    Option EarthquakeData :=
  let earthquakeJson := decodeHexMessage hexMessage
  if earthquakeJson.length = 0 then none
  else parseEarthquakeJson earthquakeJson

/-- The fields `handleWebSocketMessage` reads off the deserialized JSON
document (the external JSON collaborator's output). `uidOnly` is the
handshake test: `uid` is a string, `data` is not an object and `topic` is
not a string. -/
structure WsFrame where
  parseOk : Bool
  uidOnly : Bool
  hasData : Bool
  hasTransaction : Bool
  signerPublicKey : String
  message : String
  metaHash : String

/-- `handleWebSocketMessage` (websocket.cpp): the guard cascade on a
received frame.  Returns the dedup state afterwards and the decoded record
forwarded to `notifyEarthquake`, if any. -/
def handleWebSocketMessage (f : WsFrame) (signerPubKey : String)
    (s : DedupState)
    (parseEarthquakeJson : String → Option EarthquakeData) :
    DedupState × Option EarthquakeData :=
  if ¬f.parseOk then (s, none)
  else if f.uidOnly then (s, none)
  else if ¬f.hasData then (s, none)
  else if ¬f.hasTransaction then (s, none)
  else if signerPubKey.length > 0 ∧ f.signerPublicKey ≠ signerPubKey then
    (s, none)
  else if f.message.length = 0 then (s, none)
  else if isDuplicateTransaction s f.metaHash then (s, none)
  else
    let s' := addTransactionHash s f.metaHash
    match parseWebSocketMessage f.message parseEarthquakeJson with
    | none => (s', none)
    | some eq => (s', some eq)

/-- C3 counterexample: a structurally valid frame whose payload "00" fails
to decode (it decodes to the empty string) still changes the DedupWindow —
its hash is admitted BEFORE the decode is attempted, so a decode failure
does not leave the window unchanged as claimed. -/
theorem claim_C3_counterexample :
    (handleWebSocketMessage ⟨true, false, true, true, "", "00", "HASH1"⟩
        "" dedupInit (fun _ => none)).2 = none ∧
    (handleWebSocketMessage ⟨true, false, true, true, "", "00", "HASH1"⟩
        "" dedupInit (fun _ => none)).1 ≠ dedupInit := by
  constructor
  · rfl
  · decide

/-- C3 (amended): for every Subscribed-state event frame that passes the
structural, signer and nonempty-message checks, the Deduplicator is
consulted BEFORE the payload is decoded: a duplicate hash is discarded
without any decode (state unchanged, nothing forwarded), and a novel hash
is admitted into the dedup window regardless of whether the payload
subsequently decodes (the result holds for every decode oracle). -/
theorem claim_C3_amended (f : WsFrame) (key : String) (s : DedupState)
    (oracle : String → Option EarthquakeData)
    (h1 : f.parseOk = true) (h2 : f.uidOnly = false) (h3 : f.hasData = true)
    (h4 : f.hasTransaction = true)
    (h5 : key.length = 0 ∨ f.signerPublicKey = key)
    (h6 : f.message.length ≠ 0) :
    if isDuplicateTransaction s f.metaHash then
      handleWebSocketMessage f key s oracle = (s, none)
    else
      (handleWebSocketMessage f key s oracle).1 =
        addTransactionHash s f.metaHash := by
  unfold handleWebSocketMessage
  have h5' : ¬(key.length > 0 ∧ f.signerPublicKey ≠ key) := by
    rcases h5 with h | h
    · intro hc
      omega
    · intro hc
      exact hc.2 h
  by_cases hdup : isDuplicateTransaction s f.metaHash
  · simp [h1, h2, h3, h4, h5', h6, hdup]
  · simp [h1, h2, h3, h4, h5', h6, hdup]
    rcases parseWebSocketMessage f.message oracle with _ | eq <;> simp

/-- Witness for C3 at a concrete input: a novel hash is admitted even
though the decode oracle fails on the frame. -/
theorem claim_C3_witness :
    if isDuplicateTransaction dedupInit "HASH1" then
      handleWebSocketMessage ⟨true, false, true, true, "K", "00", "HASH1"⟩
        "" dedupInit (fun _ => none) = (dedupInit, none)
    else
      (handleWebSocketMessage ⟨true, false, true, true, "K", "00", "HASH1"⟩
        "" dedupInit (fun _ => none)).1 =
        addTransactionHash dedupInit "HASH1" :=
  claim_C3_amended ⟨true, false, true, true, "K", "00", "HASH1"⟩ "" dedupInit
    (fun _ => none) rfl rfl rfl rfl (Or.inl rfl) (by decide)

/-! ## Severity tables (display.cpp getIntensityColor,
notification.cpp getBeepCountForIntensity) -/

def COLOR_INTENSITY_1_2 : Nat := 0x0320
def COLOR_INTENSITY_3_4 : Nat := 0x8420
def COLOR_INTENSITY_5L_6L : Nat := 0xC320
def COLOR_INTENSITY_6H_7 : Nat := 0xB000
def COLOR_INTENSITY_UNKNOWN : Nat := 0x4208

/-- Arduino `String::startsWith`, used by `getIntensityColor`. -/
def strStartsWith (s p : String) : Bool := p.data.isPrefixOf s.data

/-- `getIntensityColor` (display.cpp): RGB565 background/flash colour for
an intensity string. -/
def getIntensityColor (intensity : String) : Nat :=
  if intensity = "1" ∨ intensity = "2" then COLOR_INTENSITY_1_2
  else if intensity = "3" ∨ intensity = "4" then COLOR_INTENSITY_3_4
  else if strStartsWith intensity "5" ∨ intensity = "6弱" then
    COLOR_INTENSITY_5L_6L
  else if intensity = "6強" ∨ intensity = "7" then COLOR_INTENSITY_6H_7
  else COLOR_INTENSITY_UNKNOWN

/-- `getBeepCountForIntensity` (notification.cpp). -/
def getBeepCountForIntensity (intensity : String) : Nat :=
  if intensity = "5弱" ∨ intensity = "5強" ∨ intensity = "6弱" ∨
      intensity = "6強" ∨ intensity = "7" then 3
  else if intensity = "3" ∨ intensity = "4" then 2
  else 1

/-! ## Notification queue (notification.cpp: notificationQueue /
queueHead / queueTail / queueCount) -/

def NOTIFICATION_QUEUE_SIZE : Nat := 3

/-- Circular notification queue; the fixed 3-slot C array is a list whose
length-3 well-formedness is `QueueWF`. -/
structure NotifQueue where
  buf : List EarthquakeData
  queueHead : Nat
  queueTail : Nat
  queueCount : Nat
deriving Inhabited, DecidableEq

def queueInit : NotifQueue :=
  ⟨List.replicate NOTIFICATION_QUEUE_SIZE default, 0, 0, 0⟩

/-- The evict-if-full-then-append block of `notifyEarthquake`. -/
def queueEnqueue (q : NotifQueue) (data : EarthquakeData) : NotifQueue :=
  let q1 :=
    if q.queueCount ≥ NOTIFICATION_QUEUE_SIZE then
      { q with queueHead := (q.queueHead + 1) % NOTIFICATION_QUEUE_SIZE,
               queueCount := q.queueCount - 1 }
    else q
  { q1 with buf := q1.buf.set q1.queueTail data,
            queueTail := (q1.queueTail + 1) % NOTIFICATION_QUEUE_SIZE,
            queueCount := q1.queueCount + 1 }

/-- The record at the take-out position (`notificationQueue[queueHead]`). -/
def queueFront (q : NotifQueue) : EarthquakeData :=
  q.buf.getD q.queueHead default

/-- The take-out block of `processNotificationQueue` (the source reaches it
only after checking `queueCount == 0`). -/
def queueDequeue (q : NotifQueue) : NotifQueue :=
  { q with queueHead := (q.queueHead + 1) % NOTIFICATION_QUEUE_SIZE,
           queueCount := q.queueCount - 1 }

/-- Logical contents of the queue, oldest (index 0 = queueHead) first. -/
def queueToList (q : NotifQueue) : List EarthquakeData :=
  (List.range q.queueCount).map
    (fun i => q.buf.getD ((q.queueHead + i) % NOTIFICATION_QUEUE_SIZE) default)

def QueueWF (q : NotifQueue) : Prop :=
  q.buf.length = 3 ∧ q.queueHead < 3 ∧ q.queueCount ≤ 3 ∧
    q.queueTail = (q.queueHead + q.queueCount) % 3

theorem list_len3 {α : Type} {l : List α} (h : l.length = 3) :
    ∃ a0 a1 a2 : α, l = [a0, a1, a2] := by
  rcases l with _ | ⟨a0, l⟩
  · simp at h
  rcases l with _ | ⟨a1, l⟩
  · simp at h
  rcases l with _ | ⟨a2, l⟩
  · simp at h
  rcases l with _ | ⟨a3, l⟩
  · exact ⟨a0, a1, a2, rfl⟩
  · simp at h

theorem queueInit_wf : QueueWF queueInit := by
  refine ⟨?_, ?_, ?_, ?_⟩ <;> simp [queueInit, NOTIFICATION_QUEUE_SIZE]

theorem queueEnqueue_wf {q : NotifQueue} (h : QueueWF q)
    (d : EarthquakeData) : QueueWF (queueEnqueue q d) := by
  obtain ⟨hb, hh, hc, ht⟩ := h
  unfold queueEnqueue QueueWF NOTIFICATION_QUEUE_SIZE
  split_ifs with hfull <;>
    simp_all <;> omega

theorem queueDequeue_wf {q : NotifQueue} (h : QueueWF q)
    (hne : q.queueCount ≠ 0) : QueueWF (queueDequeue q) := by
  obtain ⟨hb, hh, hc, ht⟩ := h
  unfold queueDequeue QueueWF NOTIFICATION_QUEUE_SIZE
  dsimp only
  refine ⟨by simpa using hb, by omega, by omega, by omega⟩

theorem queueEnqueue_full_evicts {q : NotifQueue} (h : QueueWF q)
    (hfull : q.queueCount = 3) (d : EarthquakeData) :
    queueToList (queueEnqueue q d) = (queueToList q).drop 1 ++ [d] := by
  obtain ⟨b, qh, qt, qc⟩ := q
  obtain ⟨hb, hh, hc, ht⟩ := h
  simp only at hb hh hc ht hfull
  obtain ⟨a0, a1, a2, rfl⟩ := list_len3 hb
  subst hfull
  subst ht
  interval_cases qh <;>
    simp [queueEnqueue, queueToList, NOTIFICATION_QUEUE_SIZE, List.range_succ]

theorem queueDequeue_toList {q : NotifQueue} (h : QueueWF q)
    (hne : q.queueCount ≠ 0) :
    queueToList (queueDequeue q) = (queueToList q).drop 1 := by
  obtain ⟨b, qh, qt, qc⟩ := q
  obtain ⟨hb, hh, hc, ht⟩ := h
  simp only at hb hh hc ht hne
  obtain ⟨a0, a1, a2, rfl⟩ := list_len3 hb
  subst ht
  interval_cases qh <;> interval_cases qc <;>
    simp [queueDequeue, queueToList, NOTIFICATION_QUEUE_SIZE, List.range_succ]

/-- An enqueue/dequeue history on the notification queue. -/
inductive QOp where
  | enq (data : EarthquakeData)
  | deq
deriving DecidableEq

/-- Replay of queue operations as the scheduler performs them (dequeue is
guarded by the `queueCount == 0` check of `processNotificationQueue`). -/
def queueRun : NotifQueue → List QOp → NotifQueue
  | q, [] => q
  | q, (QOp.enq d) :: ops => queueRun (queueEnqueue q d) ops
  | q, QOp.deq :: ops =>
    queueRun (if q.queueCount = 0 then q else queueDequeue q) ops

theorem queueRun_wf {q : NotifQueue} (h : QueueWF q) (ops : List QOp) :
    QueueWF (queueRun q ops) := by
  induction ops generalizing q with
  | nil => simpa [queueRun] using h
  | cons op ops ih =>
    cases op with
    | enq d => exact ih (queueEnqueue_wf h d)
    | deq =>
      by_cases hz : q.queueCount = 0
      · simpa [queueRun, hz] using ih h
      · simpa [queueRun, hz] using ih (queueDequeue_wf h hz)

/-- C5: the NotificationQueue never holds more than 3 records after any
sequence of enqueue/dequeue operations, and enqueuing while 3 records are
pending evicts exactly the oldest record (logical index 0, the one at the
queue head) before appending the new one — the newest record is always
appended, never rejected for capacity. -/
theorem claim_C5 :
    (∀ ops : List QOp, (queueRun queueInit ops).queueCount ≤ 3) ∧
    (∀ (q : NotifQueue) (d : EarthquakeData), QueueWF q → q.queueCount = 3 →
      queueToList (queueEnqueue q d) = (queueToList q).drop 1 ++ [d] ∧
      (queueEnqueue q d).queueCount = 3) := by
  constructor
  · intro ops
    exact (queueRun_wf queueInit_wf ops).2.2.1
  · intro q d hwf hfull
    refine ⟨queueEnqueue_full_evicts hwf hfull d, ?_⟩
    unfold queueEnqueue NOTIFICATION_QUEUE_SIZE
    dsimp only
    simp [hfull]

/-- Witness for C5 at concrete inputs: a history that enqueues four records
(with an interleaved dequeue) stays within capacity, and a concrete full
queue evicts its head on enqueue. -/
theorem claim_C5_witness :
    (queueRun queueInit
      [QOp.enq default, QOp.enq default, QOp.deq, QOp.enq default,
       QOp.enq default, QOp.enq default]).queueCount ≤ 3 ∧
    (queueToList (queueEnqueue ⟨[default, default, default], 0, 0, 3⟩
        default) =
      (queueToList (⟨[default, default, default], 0, 0, 3⟩ : NotifQueue)).drop
          1 ++ [default] ∧
      (queueEnqueue ⟨[default, default, default], 0, 0, 3⟩
        default).queueCount = 3) :=
  ⟨claim_C5.1 _,
   claim_C5.2 ⟨[default, default, default], 0, 0, 3⟩ default
     ⟨by simp, by simp, by simp, by simp⟩ rfl⟩

/-! ## Notification scheduler + display list state (the module-level
statics of notification.cpp and display.cpp that the scheduler drives) -/

def BEEP_DURATION_MS : Nat := 150
def BEEP_INTERVAL_MS : Nat := 100
def FLASH_DURATION_MS : Nat := 1500
def FLASH_INTERVAL_MS : Nat := 300
def MAX_EARTHQUAKE_LIST : Nat := 50

structure NotifSys where
  queue : NotifQueue
  beepCount : Nat
  beepPlayed : Nat
  lastBeepTime : Nat
  isFlashing : Bool
  flashStartTime : Nat
  flashColor : Nat
  earthquakeList : List EarthquakeData
  scrollOffset : Int
  isDragging : Bool
deriving Inhabited, DecidableEq

def notifInit : NotifSys :=
  ⟨queueInit, 0, 0, 0, false, 0, 0, [], 0, false⟩

/-- `isUserScrolling` (display.cpp): dragging, or scrolled away from 0. -/
def isUserScrolling (s : NotifSys) : Bool :=
  s.isDragging || decide (s.scrollOffset > 0)

/-- `addEarthquakeToDisplay` (display.cpp): validate, drop the oldest
(tail) entry when the 50-slot list is full, prepend, then jump to the top
unless the user is scrolling.  The fixed array plus count is modelled as a
list. -/
def addEarthquakeToDisplay (data : EarthquakeData) (s : NotifSys) :
    NotifSys :=
  if data.maxIntensity.length = 0 then s
  else
    let base :=
      if s.earthquakeList.length ≥ MAX_EARTHQUAKE_LIST then
        s.earthquakeList.take (MAX_EARTHQUAKE_LIST - 1)
      else s.earthquakeList
    let s1 := { s with earthquakeList := data :: base }
    if ¬isUserScrolling s1 then { s1 with scrollOffset := 0 } else s1

/-- `playBeepSound` (notification.cpp): start the beep state machine. -/
def playBeepSound (now count : Nat) (s : NotifSys) : NotifSys :=
  { s with beepCount := count, beepPlayed := 0, lastBeepTime := now }

/-- `flashScreen` (notification.cpp): start the visual flash. -/
def flashScreen (now color : Nat) (s : NotifSys) : NotifSys :=
  { s with isFlashing := true, flashStartTime := now, flashColor := color }

/-- `processNotificationQueue` (notification.cpp): unless audio is busy,
take the head record and start beeps, flashing and the display insert. -/
def processNotificationQueue (now : Nat) (s : NotifSys) : NotifSys :=
  if s.beepCount > 0 then s
  else if s.queue.queueCount = 0 then s
  else
    let data := queueFront s.queue
    let s1 := { s with queue := queueDequeue s.queue }
    let s2 := playBeepSound now (getBeepCountForIntensity data.maxIntensity)
      s1
    let s3 := flashScreen now (getIntensityColor data.maxIntensity) s2
    addEarthquakeToDisplay data s3

/-- `notifyEarthquake` (notification.cpp): heap guard, input validation,
enqueue with eviction, then attempt to start processing. -/
def notifyEarthquake (now freeHeap : Nat) (data : EarthquakeData)
    (s : NotifSys) : NotifSys :=
  if freeHeap < 15000 then s
  else if data.maxIntensity.length = 0 then s
  else processNotificationQueue now { s with queue := queueEnqueue s.queue data }

/-- `updateFlashScreen` (notification.cpp): touch cancels the flash
immediately; otherwise the flash ends after 1.5 s; drawing side effects are
omitted. -/
def updateFlashScreen (now : Nat) (touchPressed : Bool) (s : NotifSys) :
    NotifSys :=
  if ¬s.isFlashing then s
  else if touchPressed then { s with isFlashing := false }
  else if elapsedMs now s.flashStartTime ≥ FLASH_DURATION_MS then
    { s with isFlashing := false }
  else s

/-- `updateNotification` (notification.cpp): one tick — advance the beep
state machine (each beep slot is 150 ms + 100 ms gap; finishing the last
beep marks audio idle and immediately processes the queue), then update the
visual flash. -/
def updateNotification (now : Nat) (touchPressed : Bool) (s : NotifSys) :
    NotifSys :=
  let s1 :=
    if s.beepPlayed < s.beepCount then
      if elapsedMs now s.lastBeepTime ≥ BEEP_DURATION_MS + BEEP_INTERVAL_MS
      then
        let p := s.beepPlayed + 1
        if p < s.beepCount then { s with beepPlayed := p, lastBeepTime := now }
        else processNotificationQueue now
          { s with beepPlayed := p, beepCount := 0 }
      else s
    else s
  updateFlashScreen now touchPressed s1

/-- `addEarthquakeToDisplay` touches only the display list and the scroll
offset; every scheduler field is preserved. -/
theorem addEarthquakeToDisplay_proj (data : EarthquakeData) (s : NotifSys) :
    (addEarthquakeToDisplay data s).queue = s.queue ∧
    (addEarthquakeToDisplay data s).beepCount = s.beepCount ∧
    (addEarthquakeToDisplay data s).beepPlayed = s.beepPlayed ∧
    (addEarthquakeToDisplay data s).lastBeepTime = s.lastBeepTime ∧
    (addEarthquakeToDisplay data s).isFlashing = s.isFlashing ∧
    (addEarthquakeToDisplay data s).flashStartTime = s.flashStartTime ∧
    (addEarthquakeToDisplay data s).flashColor = s.flashColor := by
  unfold addEarthquakeToDisplay
  dsimp only
  split_ifs <;> simp

/-- Starting playback from an audio-idle state with a nonempty queue:
`processNotificationQueue` dequeues the head record and starts both
channels for it, no matter what the visual channel was doing. -/
theorem processNotificationQueue_start (now : Nat) (s : NotifSys)
    (hb : s.beepCount = 0) (h3 : s.queue.queueCount ≠ 0)
    (hw : QueueWF s.queue) :
    queueToList (processNotificationQueue now s).queue =
      (queueToList s.queue).drop 1 ∧
    (processNotificationQueue now s).beepCount =
      getBeepCountForIntensity (queueFront s.queue).maxIntensity ∧
    (processNotificationQueue now s).beepPlayed = 0 ∧
    (processNotificationQueue now s).lastBeepTime = now ∧
    (processNotificationQueue now s).isFlashing = true ∧
    (processNotificationQueue now s).flashStartTime = now ∧
    (processNotificationQueue now s).flashColor =
      getIntensityColor (queueFront s.queue).maxIntensity := by
  unfold processNotificationQueue
  simp only [hb, gt_iff_lt, lt_irrefl, if_false, h3, if_neg h3]
  have hproj := addEarthquakeToDisplay_proj (queueFront s.queue)
    (flashScreen now (getIntensityColor (queueFront s.queue).maxIntensity)
      (playBeepSound now
        (getBeepCountForIntensity (queueFront s.queue).maxIntensity)
        { s with queue := queueDequeue s.queue }))
  simp only [flashScreen, playBeepSound] at hproj ⊢
  simp [hproj.1, hproj.2.1, hproj.2.2.1, hproj.2.2.2.1, hproj.2.2.2.2.1,
    hproj.2.2.2.2.2.1, hproj.2.2.2.2.2.2, queueDequeue_toList hw h3]

theorem updateFlashScreen_fresh (now : Nat) (s : NotifSys)
    (hf : s.isFlashing = true) (ht : s.flashStartTime = now) :
    updateFlashScreen now false s = s := by
  unfold updateFlashScreen
  simp [hf, ht, elapsedMs_self, FLASH_DURATION_MS]

/-- Concrete records used in witnesses and counterexamples (intensity 5弱:
3 beeps / orange; intensity 3: 2 beeps / yellow; intensity 1: 1 beep). -/
def eqA : EarthquakeData :=
  ⟨"2024-03-15T09:45:23+09:00", "locA", 357, 1402, 80, 58, "5弱", "None"⟩

def eqB : EarthquakeData :=
  ⟨"2024-03-15T12:30:00+09:00", "locB", 361, 1401, 50, 42, "3", "None"⟩

def eqC : EarthquakeData :=
  ⟨"2024-03-15T12:31:00+09:00", "locC", 361, 1401, 50, 42, "1", "None"⟩

/-- C1 counterexample: while record `eqA` (3 beeps) is playing with `eqB`
pending, a touch at t = 100 ms does NOT idle the audio channel (beepCount
stays 3, the remaining beeps are not discarded) and does NOT advance the
queue (eqB stays pending): only the flash is stopped.  This refutes the
claim that cancellation forces both sub-state-machines idle and advances
the queue within the same tick. -/
theorem claim_C1_counterexample :
    (notifyEarthquake 0 100000 eqB
        (notifyEarthquake 0 100000 eqA notifInit)).isFlashing = true ∧
    (notifyEarthquake 0 100000 eqB
        (notifyEarthquake 0 100000 eqA notifInit)).beepCount = 3 ∧
    ¬((updateNotification 100 true (notifyEarthquake 0 100000 eqB
          (notifyEarthquake 0 100000 eqA notifInit))).beepCount = 0 ∧
      (updateNotification 100 true (notifyEarthquake 0 100000 eqB
          (notifyEarthquake 0 100000 eqA notifInit))).queue.queueCount
        = 0) := by
  refine ⟨rfl, rfl, ?_⟩
  decide

/-- C1 (amended): a touch during a tick cancels only the visual channel:
the flash is forced idle within the same tick, while (in a tick in which
the beep machine does not fire, i.e. less than 250 ms after the last beep
slot began) the audio sub-state-machine, the pending queue and the List
Store contents are left untouched by the cancellation — in particular the
record being played is still present in the List Store, where it was
committed when its playback started. -/
theorem claim_C1_amended (s : NotifSys) (now : Nat)
    (h : elapsedMs now s.lastBeepTime <
      BEEP_DURATION_MS + BEEP_INTERVAL_MS) :
    (updateNotification now true s).isFlashing = false ∧
    (updateNotification now true s).beepCount = s.beepCount ∧
    (updateNotification now true s).beepPlayed = s.beepPlayed ∧
    (updateNotification now true s).queue = s.queue ∧
    (updateNotification now true s).earthquakeList = s.earthquakeList := by
  have hlt : ¬(elapsedMs now s.lastBeepTime ≥
      BEEP_DURATION_MS + BEEP_INTERVAL_MS) := by omega
  by_cases hbp : s.beepPlayed < s.beepCount <;>
    by_cases hf : s.isFlashing <;>
      simp [updateNotification, updateFlashScreen, hbp, hf, hlt]

/-- Witness for C1 at a concrete input: the touch tick at t = 100 on the
state playing eqA with eqB pending. -/
theorem claim_C1_witness :
    (updateNotification 100 true (notifyEarthquake 0 100000 eqB
        (notifyEarthquake 0 100000 eqA notifInit))).isFlashing = false ∧
    (updateNotification 100 true (notifyEarthquake 0 100000 eqB
        (notifyEarthquake 0 100000 eqA notifInit))).beepCount =
      (notifyEarthquake 0 100000 eqB
        (notifyEarthquake 0 100000 eqA notifInit)).beepCount ∧
    (updateNotification 100 true (notifyEarthquake 0 100000 eqB
        (notifyEarthquake 0 100000 eqA notifInit))).beepPlayed =
      (notifyEarthquake 0 100000 eqB
        (notifyEarthquake 0 100000 eqA notifInit)).beepPlayed ∧
    (updateNotification 100 true (notifyEarthquake 0 100000 eqB
        (notifyEarthquake 0 100000 eqA notifInit))).queue =
      (notifyEarthquake 0 100000 eqB
        (notifyEarthquake 0 100000 eqA notifInit)).queue ∧
    (updateNotification 100 true (notifyEarthquake 0 100000 eqB
        (notifyEarthquake 0 100000 eqA notifInit))).earthquakeList =
      (notifyEarthquake 0 100000 eqB
        (notifyEarthquake 0 100000 eqA notifInit)).earthquakeList :=
  claim_C1_amended
    (notifyEarthquake 0 100000 eqB (notifyEarthquake 0 100000 eqA notifInit))
    100 (by decide)

/-- C2 counterexample: with `eqC` (1 beep) playing and `eqB` pending, the
tick at t = 250 finishes the last beep while the visual flash started at
t = 0 is still running (250 < 1500), yet the scheduler dequeues `eqB` and
starts it (queue empties, beeps and the flash restart at t = 250) — the
next record IS started while the visual channel is still flashing. -/
theorem claim_C2_counterexample :
    (notifyEarthquake 0 100000 eqB
        (notifyEarthquake 0 100000 eqC notifInit)).isFlashing = true ∧
    elapsedMs 250 (notifyEarthquake 0 100000 eqB
        (notifyEarthquake 0 100000 eqC notifInit)).flashStartTime <
      FLASH_DURATION_MS ∧
    (updateNotification 250 false (notifyEarthquake 0 100000 eqB
        (notifyEarthquake 0 100000 eqC notifInit))).queue.queueCount = 0 ∧
    (updateNotification 250 false (notifyEarthquake 0 100000 eqB
        (notifyEarthquake 0 100000 eqC notifInit))).flashStartTime = 250 ∧
    (updateNotification 250 false (notifyEarthquake 0 100000 eqB
        (notifyEarthquake 0 100000 eqC notifInit))).beepCount =
      getBeepCountForIntensity eqB.maxIntensity := by
  refine ⟨rfl, by decide, ?_, rfl, rfl⟩
  decide

/-- C2 (amended): when the tick completes the audio channel's last beep
(played + 1 = count and the 250 ms slot has elapsed), audio is marked idle
and the scheduler immediately dequeues the next pending record (if any)
and starts BOTH channels for it — regardless of whether the visual channel
is still flashing; the visual flash is simply restarted at the current
tick for the new record. -/
theorem claim_C2_amended (s : NotifSys) (now : Nat)
    (h1 : s.beepPlayed + 1 = s.beepCount)
    (h2 : elapsedMs now s.lastBeepTime ≥
      BEEP_DURATION_MS + BEEP_INTERVAL_MS)
    (h3 : s.queue.queueCount ≠ 0) (hw : QueueWF s.queue) :
    queueToList (updateNotification now false s).queue =
      (queueToList s.queue).drop 1 ∧
    (updateNotification now false s).beepCount =
      getBeepCountForIntensity (queueFront s.queue).maxIntensity ∧
    (updateNotification now false s).beepPlayed = 0 ∧
    (updateNotification now false s).lastBeepTime = now ∧
    (updateNotification now false s).isFlashing = true ∧
    (updateNotification now false s).flashStartTime = now ∧
    (updateNotification now false s).flashColor =
      getIntensityColor (queueFront s.queue).maxIntensity := by
  have hbp : s.beepPlayed < s.beepCount := by omega
  have hnp : ¬(s.beepPlayed + 1 < s.beepCount) := by omega
  have hstart := processNotificationQueue_start now
    { s with beepPlayed := s.beepPlayed + 1, beepCount := 0 } rfl h3 hw
  have hred : updateNotification now false s =
      updateFlashScreen now false (processNotificationQueue now
        { s with beepPlayed := s.beepPlayed + 1, beepCount := 0 }) := by
    unfold updateNotification
    simp [hbp, h2, hnp]
  rw [hred,
    updateFlashScreen_fresh now _ hstart.2.2.2.2.1 hstart.2.2.2.2.2.1]
  exact hstart

/-- Witness for C2 at a concrete input: the t = 250 tick on the state
playing eqC with eqB pending. -/
theorem claim_C2_witness :
    queueToList (updateNotification 250 false (notifyEarthquake 0 100000 eqB
        (notifyEarthquake 0 100000 eqC notifInit))).queue =
      (queueToList (notifyEarthquake 0 100000 eqB
        (notifyEarthquake 0 100000 eqC notifInit)).queue).drop 1 ∧
    (updateNotification 250 false (notifyEarthquake 0 100000 eqB
        (notifyEarthquake 0 100000 eqC notifInit))).beepCount =
      getBeepCountForIntensity (queueFront (notifyEarthquake 0 100000 eqB
        (notifyEarthquake 0 100000 eqC notifInit)).queue).maxIntensity ∧
    (updateNotification 250 false (notifyEarthquake 0 100000 eqB
        (notifyEarthquake 0 100000 eqC notifInit))).beepPlayed = 0 ∧
    (updateNotification 250 false (notifyEarthquake 0 100000 eqB
        (notifyEarthquake 0 100000 eqC notifInit))).lastBeepTime = 250 ∧
    (updateNotification 250 false (notifyEarthquake 0 100000 eqB
        (notifyEarthquake 0 100000 eqC notifInit))).isFlashing = true ∧
    (updateNotification 250 false (notifyEarthquake 0 100000 eqB
        (notifyEarthquake 0 100000 eqC notifInit))).flashStartTime = 250 ∧
    (updateNotification 250 false (notifyEarthquake 0 100000 eqB
        (notifyEarthquake 0 100000 eqC notifInit))).flashColor =
      getIntensityColor (queueFront (notifyEarthquake 0 100000 eqB
        (notifyEarthquake 0 100000 eqC notifInit)).queue).maxIntensity :=
  claim_C2_amended
    (notifyEarthquake 0 100000 eqB (notifyEarthquake 0 100000 eqC notifInit))
    250 (by decide) (by decide) (by decide)
    ⟨by decide, by decide, by decide, by decide⟩

/-- C9: on every insert into the List Store of a valid record, if the
store is not engaged (no active drag and zero scroll offset) the scroll
offset is reset to 0, and if engaged (dragging, or offset > 0) the offset
is left unchanged; the record is prepended in both cases. -/
theorem claim_C9 (s : NotifSys) (data : EarthquakeData)
    (hvalid : data.maxIntensity.length ≠ 0) :
    (addEarthquakeToDisplay data s).earthquakeList.head? = some data ∧
    (s.isDragging = false ∧ s.scrollOffset = 0 →
      (addEarthquakeToDisplay data s).scrollOffset = 0) ∧
    (s.isDragging = true ∨ 0 < s.scrollOffset →
      (addEarthquakeToDisplay data s).scrollOffset = s.scrollOffset) := by
  unfold addEarthquakeToDisplay isUserScrolling
  dsimp only
  refine ⟨?_, ?_, ?_⟩
  · split_ifs <;> simp_all
  · rintro ⟨hd, ho⟩
    split_ifs <;> simp_all
  · intro heng
    split_ifs <;> simp_all

/-- Witness for C9 at a concrete input: inserting eqA into an engaged
store (offset 40) keeps the offset; the record lands at the head. -/
theorem claim_C9_witness :
    (addEarthquakeToDisplay eqA
        ⟨queueInit, 0, 0, 0, false, 0, 0, [eqB], 40, false⟩
      ).earthquakeList.head? = some eqA ∧
    ((false : Bool) = false ∧ (40 : Int) = 0 →
      (addEarthquakeToDisplay eqA
        ⟨queueInit, 0, 0, 0, false, 0, 0, [eqB], 40, false⟩
      ).scrollOffset = 0) ∧
    ((false : Bool) = true ∨ (0 : Int) < 40 →
      (addEarthquakeToDisplay eqA
        ⟨queueInit, 0, 0, 0, false, 0, 0, [eqB], 40, false⟩
      ).scrollOffset = 40) :=
  claim_C9 ⟨queueInit, 0, 0, 0, false, 0, 0, [eqB], 40, false⟩ eqA
    (by decide)

/-! ## Connection manager (websocket.cpp: webSocketLoop, checkPongTimeout,
monitorMemory, connectWebSocket and the associated callbacks) -/

def RECONNECT_INTERVAL : Nat := 5000
def BACKOFF_INTERVAL : Nat := 60000
def MAX_CONSECUTIVE_FAILURES : Nat := 5
def MEMORY_CHECK_INTERVAL : Nat := 10000
def LOW_MEMORY_THRESHOLD : Nat := 20000
def CRITICAL_MEMORY_THRESHOLD : Nat := 15000
def PING_INTERVAL : Nat := 60000
def PONG_TIMEOUT : Nat := 30000

/-- The module-level connection state of websocket.cpp (the UID/subscribe
fields, which no verified claim touches, are omitted). -/
structure WsState where
  wsConnected : Bool
  reconnectTimer : Nat
  consecutiveFailures : Nat
  memoryCheckTimer : Nat
  lastPingSentTime : Nat
  lastPongReceivedTime : Nat
deriving Inhabited, DecidableEq

/-- `disconnectWebSocket`: close only when connected. -/
def disconnectWebSocket (s : WsState) : WsState :=
  if s.wsConnected then { s with wsConnected := false } else s

/-- `checkPongTimeout`: no ping sent yet, or a pong at least as recent as
the last ping, means no timeout; otherwise more than 30 s since the ping
means disconnect and restart the reconnect timer WITHOUT touching the
failure counter. -/
def checkPongTimeout (now : Nat) (s : WsState) : WsState × Bool :=
  if s.lastPingSentTime = 0 then (s, false)
  else if s.lastPongReceivedTime ≥ s.lastPingSentTime then (s, false)
  else if elapsedMs now s.lastPingSentTime > PONG_TIMEOUT then
    ({ (disconnectWebSocket s) with reconnectTimer := now }, true)
  else (s, false)

/-- `monitorMemory`: sample at most every 10 s; below 15000 bytes
force-disconnect and set the failure counter to its maximum; between 15000
and 20000 warn only.  Returns (state, sampled, warned). -/
def monitorMemory (now freeHeap : Nat) (s : WsState) :
    WsState × Bool × Bool :=
  if elapsedMs now s.memoryCheckTimer ≥ MEMORY_CHECK_INTERVAL then
    let s1 := { s with memoryCheckTimer := now }
    if freeHeap < CRITICAL_MEMORY_THRESHOLD then
      ({ disconnectWebSocket s1 with
         reconnectTimer := now
         consecutiveFailures := MAX_CONSECUTIVE_FAILURES }, true, false)
    else if freeHeap < LOW_MEMORY_THRESHOLD then (s1, true, true)
    else (s1, true, false)
  else (s, false, false)

/-- `onWebSocketConnect` callback: reset the failure counter, mark the
connection a liveness signal. -/
def onWebSocketConnect (now : Nat) (s : WsState) : WsState :=
  { s with wsConnected := true, consecutiveFailures := 0,
           lastPingSentTime := 0, lastPongReceivedTime := now }

/-- `connectWebSocket`: the transport outcome is the parameter `ok`; on
success the open-callback fires, on failure the counter increments. -/
def connectWebSocket (now : Nat) (ok : Bool) (s : WsState) :
    WsState × Bool :=
  if ok then (onWebSocketConnect now s, true)
  else ({ s with consecutiveFailures := s.consecutiveFailures + 1 }, false)

/-- `sendPing`: only while connected; a failed ping leaves the sent-time
untouched so it is retried. -/
def sendPing (now : Nat) (pingOk : Bool) (s : WsState) : WsState :=
  if s.wsConnected then
    if pingOk then { s with lastPingSentTime := now } else s
  else s

/-- The backoff interval selection of `webSocketLoop`. -/
def reconnectIntervalFor (failures : Nat) : Nat :=
  if failures ≥ MAX_CONSECUTIVE_FAILURES then BACKOFF_INTERVAL
  else RECONNECT_INTERVAL

/-- External inputs of one `webSocketLoop` tick: the clock, WiFi state,
the transport connect outcome, the ping outcome, and the events `poll`
would deliver (a pong frame, a server-initiated close). -/
structure TickEnv where
  now : Nat
  wifiUp : Bool
  connectOk : Bool
  pingOk : Bool
  pongReceived : Bool
  serverClosed : Bool
  freeHeap : Nat
deriving Inhabited, DecidableEq

/-- `webSocketLoop`: one tick.  Returns the new state and whether a
connect attempt was made this tick. -/
def webSocketLoop (e : TickEnv) (s : WsState) : WsState × Bool :=
  if ¬e.wifiUp then
    (if s.wsConnected then
       { (disconnectWebSocket s) with consecutiveFailures := 0 }
     else s, false)
  else if ¬s.wsConnected then
    if elapsedMs e.now s.reconnectTimer ≥
        reconnectIntervalFor s.consecutiveFailures then
      let r := connectWebSocket e.now e.connectOk s
      let s1 := if r.2 then r.1 else { r.1 with reconnectTimer := e.now }
      ((monitorMemory e.now e.freeHeap s1).1, true)
    else ((monitorMemory e.now e.freeHeap s).1, false)
  else
    let s1 :=
      if e.pongReceived then { s with lastPongReceivedTime := e.now } else s
    let s2 := if e.serverClosed then { s1 with wsConnected := false } else s1
    let s3 :=
      if elapsedMs e.now s2.lastPingSentTime ≥ PING_INTERVAL then
        sendPing e.now e.pingOk s2
      else s2
    let s4 := (checkPongTimeout e.now s3).1
    ((monitorMemory e.now e.freeHeap s4).1, false)

/-- C7 counterexample to "schedules an immediate reconnect": after a pong
timeout detected at t = 100000 (ping at 60000, last pong at 50000, 40 s
elapsed), the reconnect timer is restarted at the detection time, so a tick
one second later — WiFi up and the transport willing to connect — makes NO
connect attempt (the normal 5 s backoff applies first). -/
theorem claim_C7_counterexample :
    (checkPongTimeout 100000 ⟨true, 90000, 0, 90000, 60000, 50000⟩).2 =
      true ∧
    (checkPongTimeout 100000
        ⟨true, 90000, 0, 90000, 60000, 50000⟩).1.reconnectTimer = 100000 ∧
    (webSocketLoop ⟨101000, true, true, true, false, false, 100000⟩
        (checkPongTimeout 100000
          ⟨true, 90000, 0, 90000, 60000, 50000⟩).1).2 = false := by
  refine ⟨rfl, rfl, ?_⟩
  decide

/-- C7 (amended): a liveness timeout is detected exactly when a ping has
been sent, the last pong is older than that ping, and more than 30 s have
elapsed since the ping; on detection the manager disconnects, leaves the
consecutive-failure counter unchanged, and RESTARTS THE RECONNECT TIMER at
the detection time (so the next attempt follows the normal backoff rather
than being immediate); without detection the state is untouched. -/
theorem claim_C7_amended (s : WsState) (now : Nat) :
    ((checkPongTimeout now s).2 = true ↔
      s.lastPingSentTime ≠ 0 ∧
        s.lastPongReceivedTime < s.lastPingSentTime ∧
        elapsedMs now s.lastPingSentTime > PONG_TIMEOUT) ∧
    ((checkPongTimeout now s).2 = true →
      (checkPongTimeout now s).1.wsConnected = false ∧
        (checkPongTimeout now s).1.consecutiveFailures =
          s.consecutiveFailures ∧
        (checkPongTimeout now s).1.reconnectTimer = now) ∧
    ((checkPongTimeout now s).2 = false → (checkPongTimeout now s).1 = s) := by
  unfold checkPongTimeout disconnectWebSocket
  split_ifs with h1 h2 h3 h4 <;> simp_all

/-- Witness for C7 at a concrete input: the detection at t = 100000
disconnects, keeps the failure counter and restarts the timer. -/
theorem claim_C7_witness :
    (checkPongTimeout 100000
        ⟨true, 90000, 2, 90000, 60000, 50000⟩).1.wsConnected = false ∧
    (checkPongTimeout 100000
        ⟨true, 90000, 2, 90000, 60000, 50000⟩).1.consecutiveFailures =
      (⟨true, 90000, 2, 90000, 60000, 50000⟩ : WsState).consecutiveFailures ∧
    (checkPongTimeout 100000
        ⟨true, 90000, 2, 90000, 60000, 50000⟩).1.reconnectTimer = 100000 :=
  (claim_C7_amended ⟨true, 90000, 2, 90000, 60000, 50000⟩ 100000).2.1
    (by decide)

/-- C8: the resource watchdog samples at most once per 10 s interval (a
non-sampling call changes nothing; two consecutive sampled calls are at
least 10 s apart); a sample below the hard threshold (15000 bytes)
force-disconnects and sets the failure counter to its maximum, making the
next backoff the long 60 s one; a sample between the hard and soft (20000
bytes) thresholds emits a warning only — connection flag, failure counter
and reconnect timer unchanged. -/
theorem claim_C8 (s : WsState) (now freeHeap : Nat) :
    ((monitorMemory now freeHeap s).2.1 = true ↔
      elapsedMs now s.memoryCheckTimer ≥ MEMORY_CHECK_INTERVAL) ∧
    ((monitorMemory now freeHeap s).2.1 = false →
      (monitorMemory now freeHeap s).1 = s) ∧
    (∀ t2 h2, (monitorMemory now freeHeap s).2.1 = true →
      (monitorMemory t2 h2 (monitorMemory now freeHeap s).1).2.1 = true →
      elapsedMs t2 now ≥ MEMORY_CHECK_INTERVAL) ∧
    ((monitorMemory now freeHeap s).2.1 = true →
      freeHeap < CRITICAL_MEMORY_THRESHOLD →
      (monitorMemory now freeHeap s).1.wsConnected = false ∧
        (monitorMemory now freeHeap s).1.consecutiveFailures =
          MAX_CONSECUTIVE_FAILURES ∧
        reconnectIntervalFor
            (monitorMemory now freeHeap s).1.consecutiveFailures =
          BACKOFF_INTERVAL) ∧
    ((monitorMemory now freeHeap s).2.1 = true →
      CRITICAL_MEMORY_THRESHOLD ≤ freeHeap →
      freeHeap < LOW_MEMORY_THRESHOLD →
      (monitorMemory now freeHeap s).2.2 = true ∧
        (monitorMemory now freeHeap s).1.wsConnected = s.wsConnected ∧
        (monitorMemory now freeHeap s).1.consecutiveFailures =
          s.consecutiveFailures ∧
        (monitorMemory now freeHeap s).1.reconnectTimer =
          s.reconnectTimer) := by
  have htimer : (monitorMemory now freeHeap s).2.1 = true →
      (monitorMemory now freeHeap s).1.memoryCheckTimer = now := by
    unfold monitorMemory disconnectWebSocket
    dsimp only
    split_ifs <;> simp_all
  refine ⟨?_, ?_, ?_, ?_, ?_⟩
  · unfold monitorMemory
    dsimp only
    split_ifs <;> simp_all
  · unfold monitorMemory
    dsimp only
    split_ifs <;> simp_all
  · intro t2 h2 hs1 hs2
    have ht := htimer hs1
    have hgate : (monitorMemory t2 h2 (monitorMemory now freeHeap s).1).2.1
        = true →
        elapsedMs t2 (monitorMemory now freeHeap s).1.memoryCheckTimer ≥
          MEMORY_CHECK_INTERVAL := by
      unfold monitorMemory
      dsimp only
      split_ifs <;> simp_all
    have := hgate hs2
    rwa [ht] at this
  · unfold monitorMemory disconnectWebSocket reconnectIntervalFor
    dsimp only
    split_ifs <;>
      simp_all [MAX_CONSECUTIVE_FAILURES, BACKOFF_INTERVAL,
        CRITICAL_MEMORY_THRESHOLD, LOW_MEMORY_THRESHOLD]
  · unfold monitorMemory
    dsimp only
    split_ifs <;>
      simp_all [CRITICAL_MEMORY_THRESHOLD, LOW_MEMORY_THRESHOLD]

/-- Witness for C8 at concrete inputs: at t = 20000 with 16000 free bytes
(between the thresholds) the watchdog warns without touching connection
state; the inner spacing claim applied to a too-early second call at
t = 25000 is vacuously checked via the gate. -/
theorem claim_C8_witness :
    ((monitorMemory 20000 16000 ⟨true, 0, 1, 0, 0, 0⟩).2.2 = true ∧
      (monitorMemory 20000 16000 ⟨true, 0, 1, 0, 0, 0⟩).1.wsConnected =
        (⟨true, 0, 1, 0, 0, 0⟩ : WsState).wsConnected ∧
      (monitorMemory 20000 16000 ⟨true, 0, 1, 0, 0, 0⟩).1.consecutiveFailures
        = (⟨true, 0, 1, 0, 0, 0⟩ : WsState).consecutiveFailures ∧
      (monitorMemory 20000 16000 ⟨true, 0, 1, 0, 0, 0⟩).1.reconnectTimer =
        (⟨true, 0, 1, 0, 0, 0⟩ : WsState).reconnectTimer) ∧
    ((monitorMemory 40000 14000 ⟨true, 0, 1, 0, 0, 0⟩).1.wsConnected = false ∧
      (monitorMemory 40000 14000 ⟨true, 0, 1, 0, 0, 0⟩).1.consecutiveFailures
        = MAX_CONSECUTIVE_FAILURES ∧
      reconnectIntervalFor
          (monitorMemory 40000 14000 ⟨true, 0, 1, 0, 0, 0⟩).1.consecutiveFailures
        = BACKOFF_INTERVAL) :=
  ⟨(claim_C8 ⟨true, 0, 1, 0, 0, 0⟩ 20000 16000).2.2.2.2 (by decide)
      (by decide) (by decide),
   (claim_C8 ⟨true, 0, 1, 0, 0, 0⟩ 40000 14000).2.2.2.1 (by decide)
      (by decide)⟩

/-- Checks that the tick times of a run are nondecreasing, start no
earlier than `r`, and stay below 2^32 (one `millis()` epoch). -/
def timesChainedB : Nat → List TickEnv → Bool
  | _, [] => true
  | r, e :: rest =>
    decide (r ≤ e.now) && decide (e.now < 4294967296) &&
      timesChainedB e.now rest

/-- Checks, along a run of ticks, that every tick that makes a connect
attempt comes no earlier than `t0` plus the backoff interval selected by
the failure count at that tick. -/
def attemptsRespectBackoff (t0 : Nat) : WsState → List TickEnv → Bool
  | _, [] => true
  | s, e :: rest =>
    (!(webSocketLoop e s).2 ||
      decide (t0 + reconnectIntervalFor s.consecutiveFailures ≤ e.now)) &&
      attemptsRespectBackoff t0 (webSocketLoop e s).1 rest

theorem timesChainedB_mono {r r' : Nat} (h : r' ≤ r) {envs : List TickEnv}
    (hc : timesChainedB r envs = true) : timesChainedB r' envs = true := by
  cases envs with
  | nil => rfl
  | cons e rest =>
    simp only [timesChainedB, Bool.and_eq_true, decide_eq_true_eq] at hc ⊢
    exact ⟨⟨le_trans h hc.1.1, hc.1.2⟩, hc.2⟩

/-- A tick attempts a connect only when the elapsed time since the
reconnect timer has reached the selected backoff interval. -/
theorem webSocketLoop_attempt_guard (e : TickEnv) (s : WsState)
    (h : (webSocketLoop e s).2 = true) :
    elapsedMs e.now s.reconnectTimer ≥
      reconnectIntervalFor s.consecutiveFailures := by
  unfold webSocketLoop at h
  split_ifs at h
  simp_all

theorem disconnectWebSocket_timer (s : WsState) :
    (disconnectWebSocket s).reconnectTimer = s.reconnectTimer := by
  unfold disconnectWebSocket
  split_ifs <;> rfl

theorem sendPing_timer (now : Nat) (ok : Bool) (s : WsState) :
    (sendPing now ok s).reconnectTimer = s.reconnectTimer := by
  unfold sendPing
  split_ifs <;> rfl

theorem checkPongTimeout_timer (now : Nat) (s : WsState) :
    (checkPongTimeout now s).1.reconnectTimer = s.reconnectTimer ∨
    (checkPongTimeout now s).1.reconnectTimer = now := by
  unfold checkPongTimeout
  split_ifs <;> simp [disconnectWebSocket_timer]

theorem monitorMemory_timer (now freeHeap : Nat) (s : WsState) :
    (monitorMemory now freeHeap s).1.reconnectTimer = s.reconnectTimer ∨
    (monitorMemory now freeHeap s).1.reconnectTimer = now := by
  unfold monitorMemory
  dsimp only
  split_ifs <;> simp [disconnectWebSocket_timer]

theorem connectWebSocket_timer (now : Nat) (ok : Bool) (s : WsState) :
    (connectWebSocket now ok s).1.reconnectTimer = s.reconnectTimer := by
  unfold connectWebSocket onWebSocketConnect
  split_ifs <;> rfl

set_option maxHeartbeats 2000000 in
/-- Across one tick the reconnect timer either is untouched or is set to
the tick's current time — it never moves backwards past a tick time. -/
theorem webSocketLoop_timer (e : TickEnv) (s : WsState) :
    (webSocketLoop e s).1.reconnectTimer = s.reconnectTimer ∨
    (webSocketLoop e s).1.reconnectTimer = e.now := by
  have hgen : ∀ s3 : WsState, s3.reconnectTimer = s.reconnectTimer →
      ((monitorMemory e.now e.freeHeap
        ((checkPongTimeout e.now s3).1)).1).reconnectTimer =
        s.reconnectTimer ∨
      ((monitorMemory e.now e.freeHeap
        ((checkPongTimeout e.now s3).1)).1).reconnectTimer = e.now := by
    intro s3 h3
    rcases checkPongTimeout_timer e.now s3 with h4 | h4 <;>
      rcases monitorMemory_timer e.now e.freeHeap
        ((checkPongTimeout e.now s3).1) with h5 | h5 <;>
      simp_all
  unfold webSocketLoop
  dsimp only
  split_ifs <;>
    first
    | (refine hgen _ ?_
       simp [sendPing_timer]
       done)
    | exact Or.inl rfl
    | (refine Or.inl ?_
       simp [disconnectWebSocket_timer]
       done)
    | (rcases monitorMemory_timer e.now e.freeHeap
          (connectWebSocket e.now e.connectOk s).1 with h | h <;>
        (simp_all [connectWebSocket_timer]
         done))
    | (rcases monitorMemory_timer e.now e.freeHeap
          { (connectWebSocket e.now e.connectOk s).1 with
            reconnectTimer := e.now } with h | h <;>
        (simp_all
         done))
    | exact monitorMemory_timer e.now e.freeHeap s

/-- On a tick that makes an attempt, the state is the post-attempt state
(watchdog applied last). -/
theorem webSocketLoop_attempt_result (e : TickEnv) (s : WsState)
    (h : (webSocketLoop e s).2 = true) :
    (webSocketLoop e s).1 =
      (monitorMemory e.now e.freeHeap
        (if (connectWebSocket e.now e.connectOk s).2 then
          (connectWebSocket e.now e.connectOk s).1
        else { (connectWebSocket e.now e.connectOk s).1 with
               reconnectTimer := e.now })).1 := by
  unfold webSocketLoop at h ⊢
  dsimp only at h ⊢
  split_ifs at h ⊢ <;> simp_all

/-- A failed connect attempt records its own tick time in the reconnect
timer. -/
theorem webSocketLoop_failed_attempt (e : TickEnv) (s : WsState)
    (hatt : (webSocketLoop e s).2 = true) (hok : e.connectOk = false) :
    (webSocketLoop e s).1.reconnectTimer = e.now := by
  rw [webSocketLoop_attempt_result e s hatt]
  have hfail : (connectWebSocket e.now e.connectOk s).2 = false := by
    rw [hok]
    rfl
  rw [if_neg (by simp [hfail])]
  rcases monitorMemory_timer e.now e.freeHeap
      { (connectWebSocket e.now e.connectOk s).1 with
        reconnectTimer := e.now } with h | h <;> simp_all

/-- C6: along any run of ticks whose times are nondecreasing and start at
or after the reconnect timer (which itself is at or after `t0`, the time
of the last attempt), every connect attempt made while disconnected waits
at least the backoff interval chosen by the failure counter at that tick:
60 s once 5 or more consecutive failures have accumulated, 5 s otherwise
— counted from `t0`.  In addition, a failed attempt records its own tick
time in the reconnect timer, which grounds `t0` as the last attempt
time. -/
theorem claim_C6 (s : WsState) (t0 : Nat) (envs : List TickEnv)
    (h0 : t0 ≤ s.reconnectTimer)
    (hc : timesChainedB s.reconnectTimer envs = true) :
    attemptsRespectBackoff t0 s envs = true ∧
    (∀ (e : TickEnv) (s' : WsState), (webSocketLoop e s').2 = true →
      e.connectOk = false →
      (webSocketLoop e s').1.reconnectTimer = e.now) := by
  constructor
  · induction envs generalizing s with
    | nil => rfl
    | cons e rest ih =>
      simp only [timesChainedB, Bool.and_eq_true, decide_eq_true_eq] at hc
      obtain ⟨⟨hle, hlt⟩, hrest⟩ := hc
      simp only [attemptsRespectBackoff, Bool.and_eq_true]
      constructor
      · by_cases hatt : (webSocketLoop e s).2 = true
        · have hguard := webSocketLoop_attempt_guard e s hatt
          rw [elapsedMs_eq_sub hle hlt] at hguard
          simp only [hatt, Bool.not_true, Bool.false_or,
            decide_eq_true_eq]
          omega
        · simp [hatt]
      · have htimer := webSocketLoop_timer e s
        have hnew0 : t0 ≤ (webSocketLoop e s).1.reconnectTimer := by
          rcases htimer with h | h <;> omega
        have hnewc : timesChainedB (webSocketLoop e s).1.reconnectTimer
            rest = true := by
          apply timesChainedB_mono _ hrest
          rcases htimer with h | h <;> omega
        exact ih _ hnew0 hnewc
  · exact fun e s' hatt hok => webSocketLoop_failed_attempt e s' hatt hok

/-- Witness for C6 at concrete inputs: disconnected with 5 accumulated
failures and the last failed attempt at t = 100000, the tick at 110000
makes no attempt and the tick at 160000 (a full 60 s later) may attempt
and, failing, records its own time. -/
theorem claim_C6_witness :
    attemptsRespectBackoff 100000 ⟨false, 100000, 5, 0, 0, 0⟩
      [⟨110000, true, true, true, false, false, 50000⟩,
       ⟨160000, true, false, true, false, false, 50000⟩] = true ∧
    (webSocketLoop ⟨160000, true, false, true, false, false, 50000⟩
        ⟨false, 100000, 5, 0, 0, 0⟩).1.reconnectTimer = 160000 :=
  ⟨(claim_C6 ⟨false, 100000, 5, 0, 0, 0⟩ 100000
      [⟨110000, true, true, true, false, false, 50000⟩,
       ⟨160000, true, false, true, false, false, 50000⟩]
      (le_refl 100000) (by decide)).1,
   (claim_C6 ⟨false, 100000, 5, 0, 0, 0⟩ 100000 [] (le_refl 100000)
      rfl).2 ⟨160000, true, false, true, false, false, 50000⟩
      ⟨false, 100000, 5, 0, 0, 0⟩ (by decide) rfl⟩

end EqMon
